import Mathlib

/-!
Shallow embedding of the DraggableText component
(src/components/DraggableText.tsx) of the Expo-Drag-And-Zoom repository.

The component keeps a set of shared values (translateX, translateY, startX,
startY, scale, startScale, and boolean flags) plus two React state cells
(canvas size and text size), and mutates them from gesture-handler callbacks
(pan and pinch) and a measurement useEffect.  We model the logical (target)
value of each shared value over the rationals, and an event-step function
whose events are the gesture and measurement callbacks delivered on the
single UI timeline.  A spring animation (withSpring v) animates toward its
argument, so its logical target value is the argument itself; the
animation's intermediate frames are visual only and not part of the logical
state.  Gesture-handler delivers onEnd (for a previously active gesture,
both on success and on cancellation) and then onFinalize on every terminal
path; the pan gesture registers both, the pinch gesture only onEnd.
-/

namespace DraggableText

/-- Model of the clamp helper imported from react-native-reanimated:
clamp(value, lowerBound, upperBound) = Math.min(Math.max(value, lowerBound), upperBound). -/
def jsClamp (value lo hi : ℚ) : ℚ := min (max value lo) hi

/-- Model of JavaScript Math.round: rounds to the nearest integer with
halves toward positive infinity, i.e. Math.round(x) = floor(x + 0.5). -/
def jsRound (x : ℚ) : ℚ := ((⌊x + 1/2⌋ : ℤ) : ℚ)

/-- Model of JavaScript Math.abs on the rational model. -/
def jsAbs (x : ℚ) : ℚ := if x < 0 then -x else x

/-- Logical target of withSpring(v): the spring settles at v. -/
def withSpringTarget (v : ℚ) : ℚ := v

/-- A measured width/height pair (the canvas state cell and the textSize
state cell). -/
structure Size where
  width : ℚ
  height : ℚ
deriving DecidableEq, Repr

/-- State of the DraggableText component: the two measurement state cells
and the logical values of all shared values.  isScaling is the
pinch-active flag (the spec calls it isPinching), isMeasured the one-shot
auto-center latch (the spec calls it hasAutoCentered). -/
structure DraggableState where
  canvas : Size
  textSize : Size
  translateX : ℚ
  translateY : ℚ
  startX : ℚ
  startY : ℚ
  scale : ℚ
  startScale : ℚ
  isDragging : Bool
  isScaling : Bool
  isMeasured : Bool
  isCenteredX : Bool
  isCenteredY : Bool
deriving DecidableEq, Repr

/-- State at mount: canvas starts at width = Dimensions.get("window").width
and height = 500, textSize at (0, 0); translate/start values 0, scale 1,
all flags false. -/
def initialState (windowWidth : ℚ) : DraggableState :=
  { canvas := { width := windowWidth, height := 500 }
    textSize := { width := 0, height := 0 }
    translateX := 0
    translateY := 0
    startX := 0
    startY := 0
    scale := 1
    startScale := 1
    isDragging := false
    isScaling := false
    isMeasured := false
    isCenteredX := false
    isCenteredY := false }

/-- Body of panGesture.onTouchesDown: isDragging := true. -/
def panOnTouchesDown (s : DraggableState) : DraggableState :=
  { s with isDragging := true }

/-- Body of panGesture.onStart: snapshot startX/startY from the live
translate values. -/
def panOnStart (s : DraggableState) : DraggableState :=
  { s with startX := s.translateX, startY := s.translateY }

/-- Body of panGesture.onUpdate: clamp the candidate position to
[0, canvas − textSize] per axis (the upper bound is not floored at 0 in the
source), round to whole pixels, then snap each axis to the exact
(unrounded) center when the rounded clamped value is within 3 pixels of
it, setting that axis's isCentered flag accordingly. -/
def panOnUpdate (s : DraggableState) (translationX translationY : ℚ) : DraggableState :=
  let newX := s.startX + translationX
  let newY := s.startY + translationY
  let minX : ℚ := 0
  let minY : ℚ := 0
  let maxX := s.canvas.width - s.textSize.width
  let maxY := s.canvas.height - s.textSize.height
  let tX := jsRound (jsClamp newX minX maxX)
  let tY := jsRound (jsClamp newY minY maxY)
  let centerX := (s.canvas.width - s.textSize.width) / 2
  let centerY := (s.canvas.height - s.textSize.height) / 2
  let diffX := jsAbs (tX - centerX)
  let diffY := jsAbs (tY - centerY)
  let tX' := if diffX ≤ 3 then centerX else tX
  let cX := if diffX ≤ 3 then true else false
  let tY' := if diffY ≤ 3 then centerY else tY
  let cY := if diffY ≤ 3 then true else false
  { s with translateX := tX', translateY := tY', isCenteredX := cX, isCenteredY := cY }

/-- Body of panGesture.onEnd: spring the translate values toward their
current values (logical targets unchanged) and clear isDragging. -/
def panOnEnd (s : DraggableState) : DraggableState :=
  { s with translateX := withSpringTarget s.translateX
           translateY := withSpringTarget s.translateY
           isDragging := false }

/-- Body of panGesture.onFinalize: clear isDragging on every terminal path. -/
def panOnFinalize (s : DraggableState) : DraggableState :=
  { s with isDragging := false }

/-- Body of pinchGesture.onStart: isScaling := true; snapshot startScale. -/
def pinchOnStart (s : DraggableState) : DraggableState :=
  { s with isScaling := true, startScale := s.scale }

/-- Body of pinchGesture.onUpdate: scale := clamp(startScale * e.scale, 0.5, 3). -/
def pinchOnUpdate (s : DraggableState) (scaleFactor : ℚ) : DraggableState :=
  { s with scale := jsClamp (s.startScale * scaleFactor) (1/2) 3 }

/-- Body of pinchGesture.onEnd: spring scale toward its current value
(logical target unchanged) and clear isScaling. -/
def pinchOnEnd (s : DraggableState) : DraggableState :=
  { s with scale := withSpringTarget s.scale, isScaling := false }

/-- Body of the measurement useEffect (runs after every change of canvas or
textSize): if not yet measured and all four dimensions are truthy
(non-zero), center the label and latch isMeasured. -/
def runMeasureEffect (s : DraggableState) : DraggableState :=
  if s.isMeasured = false ∧ s.canvas.height ≠ 0 ∧ s.canvas.width ≠ 0 ∧
      s.textSize.height ≠ 0 ∧ s.textSize.width ≠ 0 then
    { s with isMeasured := true
             translateX := (s.canvas.width - s.textSize.width) / 2
             translateY := (s.canvas.height - s.textSize.height) / 2 }
  else s

/-- Opacity of the vertical center guide line
(useAnimatedStyle: isDragging && isCenteredX ? 1 : 0). -/
def verticalLineOpacity (s : DraggableState) : ℚ :=
  if s.isDragging && s.isCenteredX then 1 else 0

/-- Opacity of the horizontal center guide line
(useAnimatedStyle: isDragging && isCenteredY ? 1 : 0). -/
def horizontalLineOpacity (s : DraggableState) : ℚ :=
  if s.isDragging && s.isCenteredY then 1 else 0

/-- Events delivered to the component on the single UI timeline.
panEnd covers gesture end after activation (onEnd then onFinalize);
panCancel covers system cancellation after activation (gesture-handler
also runs onEnd, with success = false, then onFinalize); panFail covers a
terminal path without activation, e.g. a tap, where only onFinalize runs.
pinchEnd and pinchCancel both run pinchGesture.onEnd (the pinch gesture
registers no onFinalize, and a pinch that never activated never set
isScaling).  canvasLayout and textLayout are the two measurement
callbacks; each updates its state cell and then the measurement useEffect
runs. -/
inductive Event where
  | panTouchesDown : Event
  | panStart : Event
  | panUpdate : ℚ → ℚ → Event
  | panEnd : Event
  | panCancel : Event
  | panFail : Event
  | pinchStart : Event
  | pinchUpdate : ℚ → Event
  | pinchEnd : Event
  | pinchCancel : Event
  | canvasLayout : ℚ → ℚ → Event
  | textLayout : ℚ → ℚ → Event
deriving DecidableEq, Repr

/-- One step of the component: deliver one event to the current state. -/
def step (s : DraggableState) : Event → DraggableState
  | Event.panTouchesDown => panOnTouchesDown s
  | Event.panStart => panOnStart s
  | Event.panUpdate tx ty => panOnUpdate s tx ty
  | Event.panEnd => panOnFinalize (panOnEnd s)
  | Event.panCancel => panOnFinalize (panOnEnd s)
  | Event.panFail => panOnFinalize s
  | Event.pinchStart => pinchOnStart s
  | Event.pinchUpdate f => pinchOnUpdate s f
  | Event.pinchEnd => pinchOnEnd s
  | Event.pinchCancel => pinchOnEnd s
  | Event.canvasLayout w h => runMeasureEffect { s with canvas := { width := w, height := h } }
  | Event.textLayout w h => runMeasureEffect { s with textSize := { width := w, height := h } }

/-- Run the component from mount through a list of events. -/
def run (windowWidth : ℚ) (events : List Event) : DraggableState :=
  events.foldl step (initialState windowWidth)

/-- Terminal events of the pan recognizer. -/
def isPanTerminal : Event → Bool
  | Event.panEnd => true
  | Event.panCancel => true
  | Event.panFail => true
  | _ => false

/-- Terminal events of the pinch recognizer. -/
def isPinchTerminal : Event → Bool
  | Event.pinchEnd => true
  | Event.pinchCancel => true
  | _ => false

/-! Helper lemmas shared by the claim theorems. -/

theorem jsClamp_mem (v lo hi : ℚ) (h : lo ≤ hi) :
    lo ≤ jsClamp v lo hi ∧ jsClamp v lo hi ≤ hi := by
  unfold jsClamp
  exact ⟨le_min (le_max_right v lo) h, min_le_right _ _⟩

theorem runMeasureEffect_scale (s : DraggableState) :
    (runMeasureEffect s).scale = s.scale := by
  unfold runMeasureEffect
  split <;> rfl

theorem runMeasureEffect_not_fired (s : DraggableState)
    (h : ¬ (s.isMeasured = false ∧ s.canvas.height ≠ 0 ∧ s.canvas.width ≠ 0 ∧
        s.textSize.height ≠ 0 ∧ s.textSize.width ≠ 0)) :
    runMeasureEffect s = s := by
  unfold runMeasureEffect
  rw [if_neg h]

theorem runMeasureEffect_of_isMeasured (s : DraggableState) (h : s.isMeasured = true) :
    runMeasureEffect s = s := by
  apply runMeasureEffect_not_fired
  simp [h]

theorem runMeasureEffect_isMeasured_latch (s : DraggableState) (h : s.isMeasured = true) :
    (runMeasureEffect s).isMeasured = true := by
  rw [runMeasureEffect_of_isMeasured s h]
  exact h

theorem step_isMeasured_mono (s : DraggableState) (e : Event) (h : s.isMeasured = true) :
    (step s e).isMeasured = true := by
  cases e <;>
    simp [step, panOnTouchesDown, panOnStart, panOnUpdate, panOnEnd, panOnFinalize,
      pinchOnStart, pinchOnUpdate, pinchOnEnd, runMeasureEffect_isMeasured_latch, h]

theorem step_scale_bounds (s : DraggableState) (e : Event)
    (h1 : 1/2 ≤ s.scale) (h2 : s.scale ≤ 3) :
    1/2 ≤ (step s e).scale ∧ (step s e).scale ≤ 3 := by
  cases e
  case pinchUpdate f =>
    exact jsClamp_mem (s.startScale * f) (1/2) 3 (by norm_num)
  case canvasLayout w h =>
    simp only [step, runMeasureEffect_scale]
    exact ⟨h1, h2⟩
  case textLayout w h =>
    simp only [step, runMeasureEffect_scale]
    exact ⟨h1, h2⟩
  all_goals exact ⟨h1, h2⟩

theorem foldl_scale_bounds (events : List Event) (s : DraggableState)
    (h : 1/2 ≤ s.scale ∧ s.scale ≤ 3) :
    1/2 ≤ (events.foldl step s).scale ∧ (events.foldl step s).scale ≤ 3 := by
  induction events generalizing s with
  | nil => simpa using h
  | cons e es ih => exact ih (step s e) (step_scale_bounds s e h.1 h.2)

theorem committedAxis_bounds (v m : ℚ) (hm : 0 ≤ m) :
    0 ≤ (if jsAbs (jsRound (jsClamp v 0 m) - m / 2) ≤ 3 then m / 2
          else jsRound (jsClamp v 0 m)) ∧
    (if jsAbs (jsRound (jsClamp v 0 m) - m / 2) ≤ 3 then m / 2
          else jsRound (jsClamp v 0 m)) ≤ m + 1/2 := by
  have hc0 : 0 ≤ jsClamp v 0 m := (jsClamp_mem v 0 m hm).1
  have hcm : jsClamp v 0 m ≤ m := (jsClamp_mem v 0 m hm).2
  have hr0 : 0 ≤ jsRound (jsClamp v 0 m) := by
    unfold jsRound
    have : (0 : ℤ) ≤ ⌊jsClamp v 0 m + 1/2⌋ := by
      rw [Int.le_floor]
      push_cast
      linarith
    exact_mod_cast this
  have hrm : jsRound (jsClamp v 0 m) ≤ m + 1/2 := by
    unfold jsRound
    have := Int.floor_le (jsClamp v 0 m + 1/2)
    linarith
  split_ifs with hsnap
  · constructor <;> linarith
  · exact ⟨hr0, hrm⟩

/-! Claim theorems. -/

/-- Claim C1, counterexample.  The claim asserts the committed drag position
always lies in [0, max(0, containerWidth − labelWidth)] per axis, the range
being floored at zero even when the label is larger than the container.
The source computes maxX = canvas.width − textSize.width with no flooring:
with a 100-wide canvas and a 200-wide label, a drag update commits
translateX = −100, outside [0, max(0, −100)] = [0, 0]. -/
theorem C1_counterexample :
    ¬ (0 ≤ (run 0 [Event.canvasLayout 100 100, Event.textLayout 200 50,
          Event.panTouchesDown, Event.panStart, Event.panUpdate 0 0]).translateX ∧
        (run 0 [Event.canvasLayout 100 100, Event.textLayout 200 50,
          Event.panTouchesDown, Event.panStart, Event.panUpdate 0 0]).translateX ≤
          max 0 ((run 0 [Event.canvasLayout 100 100, Event.textLayout 200 50,
              Event.panTouchesDown, Event.panStart, Event.panUpdate 0 0]).canvas.width -
            (run 0 [Event.canvasLayout 100 100, Event.textLayout 200 50,
              Event.panTouchesDown, Event.panStart, Event.panUpdate 0 0]).textSize.width)) := by
  norm_num [run, step, initialState, runMeasureEffect, panOnUpdate, panOnTouchesDown,
    panOnStart, jsClamp, jsRound, jsAbs, List.foldl]

/-- Claim C1, amended.  For every drag update, when the clamp range is
non-degenerate on both axes (container at least as large as the label), the
committed position satisfies 0 ≤ x ≤ (containerWidth − labelWidth) + 1/2
and 0 ≤ y ≤ (containerHeight − labelHeight) + 1/2.  The code does not floor
the bound at zero (see the counterexample), and it rounds the clamped value
before committing, so a fractional bound can be exceeded by up to half a
pixel; the extra 1/2 accounts for that. -/
theorem C1_drag_bounds (s : DraggableState) (tx ty : ℚ)
    (hx : 0 ≤ s.canvas.width - s.textSize.width)
    (hy : 0 ≤ s.canvas.height - s.textSize.height) :
    (0 ≤ (step s (Event.panUpdate tx ty)).translateX ∧
      (step s (Event.panUpdate tx ty)).translateX ≤
        s.canvas.width - s.textSize.width + 1/2) ∧
    (0 ≤ (step s (Event.panUpdate tx ty)).translateY ∧
      (step s (Event.panUpdate tx ty)).translateY ≤
        s.canvas.height - s.textSize.height + 1/2) := by
  have hX := committedAxis_bounds (s.startX + tx) (s.canvas.width - s.textSize.width) hx
  have hY := committedAxis_bounds (s.startY + ty) (s.canvas.height - s.textSize.height) hy
  simp only [step, panOnUpdate]
  exact ⟨hX, hY⟩

/-- Witness for the amended claim C1 at a concrete input. -/
theorem C1_drag_bounds_witness :
    (0 ≤ (step (initialState 300) (Event.panUpdate 50 700)).translateX ∧
      (step (initialState 300) (Event.panUpdate 50 700)).translateX ≤
        (initialState 300).canvas.width - (initialState 300).textSize.width + 1/2) ∧
    (0 ≤ (step (initialState 300) (Event.panUpdate 50 700)).translateY ∧
      (step (initialState 300) (Event.panUpdate 50 700)).translateY ≤
        (initialState 300).canvas.height - (initialState 300).textSize.height + 1/2) :=
  C1_drag_bounds (initialState 300) 50 700 (by norm_num [initialState])
    (by norm_num [initialState])

/-- Claim C2: on every drag update, each axis commits the exact center and
sets its isCentered flag true precisely when the rounded clamped candidate
round(clamp(dragStart + translation)) is within 3 pixels of that axis's
center (containerExtent − labelExtent)/2; otherwise it commits the rounded
clamped candidate and clears the flag.  The axes are decided independently:
the X outcome does not depend on the Y translation and vice versa. -/
theorem C2_center_snap (s : DraggableState) (tx ty tx' ty' : ℚ) :
    ((step s (Event.panUpdate tx ty)).translateX =
      (if jsAbs (jsRound (jsClamp (s.startX + tx) 0 (s.canvas.width - s.textSize.width)) -
          (s.canvas.width - s.textSize.width) / 2) ≤ 3 then
        (s.canvas.width - s.textSize.width) / 2
      else jsRound (jsClamp (s.startX + tx) 0 (s.canvas.width - s.textSize.width)))) ∧
    ((step s (Event.panUpdate tx ty)).isCenteredX = true ↔
      jsAbs (jsRound (jsClamp (s.startX + tx) 0 (s.canvas.width - s.textSize.width)) -
        (s.canvas.width - s.textSize.width) / 2) ≤ 3) ∧
    ((step s (Event.panUpdate tx ty)).translateY =
      (if jsAbs (jsRound (jsClamp (s.startY + ty) 0 (s.canvas.height - s.textSize.height)) -
          (s.canvas.height - s.textSize.height) / 2) ≤ 3 then
        (s.canvas.height - s.textSize.height) / 2
      else jsRound (jsClamp (s.startY + ty) 0 (s.canvas.height - s.textSize.height)))) ∧
    ((step s (Event.panUpdate tx ty)).isCenteredY = true ↔
      jsAbs (jsRound (jsClamp (s.startY + ty) 0 (s.canvas.height - s.textSize.height)) -
        (s.canvas.height - s.textSize.height) / 2) ≤ 3) ∧
    ((step s (Event.panUpdate tx ty)).translateX =
      (step s (Event.panUpdate tx ty')).translateX) ∧
    ((step s (Event.panUpdate tx ty)).isCenteredX =
      (step s (Event.panUpdate tx ty')).isCenteredX) ∧
    ((step s (Event.panUpdate tx ty)).translateY =
      (step s (Event.panUpdate tx' ty)).translateY) ∧
    ((step s (Event.panUpdate tx ty)).isCenteredY =
      (step s (Event.panUpdate tx' ty)).isCenteredY) := by
  refine ⟨?_, ?_, ?_, ?_, ?_, ?_, ?_, ?_⟩ <;>
    simp only [step, panOnUpdate] <;>
    split_ifs <;> simp_all

/-- Claim C3: auto-centering fires exactly once per component lifetime.  On
a measurement change with the latch clear and all four dimensions non-zero,
the position is set to the center and the latch is set; once the latch is
set it stays set forever and later measurements leave the position alone.
Concretely, container measured (300,500) then label measured (100,40)
yields position (100, 230), and a later label re-measurement to (120,40)
does not move it. -/
theorem C3_auto_center_once :
    (∀ (s : DraggableState) (w h : ℚ),
      s.isMeasured = false → s.canvas.width ≠ 0 → s.canvas.height ≠ 0 → w ≠ 0 → h ≠ 0 →
        (step s (Event.textLayout w h)).translateX = (s.canvas.width - w) / 2 ∧
        (step s (Event.textLayout w h)).translateY = (s.canvas.height - h) / 2 ∧
        (step s (Event.textLayout w h)).isMeasured = true) ∧
    (∀ (s : DraggableState) (w h : ℚ),
      s.isMeasured = false → s.textSize.width ≠ 0 → s.textSize.height ≠ 0 → w ≠ 0 → h ≠ 0 →
        (step s (Event.canvasLayout w h)).translateX = (w - s.textSize.width) / 2 ∧
        (step s (Event.canvasLayout w h)).translateY = (h - s.textSize.height) / 2 ∧
        (step s (Event.canvasLayout w h)).isMeasured = true) ∧
    (∀ (s : DraggableState) (e : Event), s.isMeasured = true → (step s e).isMeasured = true) ∧
    (∀ (s : DraggableState) (w h : ℚ), s.isMeasured = true →
        (step s (Event.textLayout w h)).translateX = s.translateX ∧
        (step s (Event.textLayout w h)).translateY = s.translateY) ∧
    (run 0 [Event.canvasLayout 300 500, Event.textLayout 100 40]).translateX = 100 ∧
    (run 0 [Event.canvasLayout 300 500, Event.textLayout 100 40]).translateY = 230 ∧
    (run 0 [Event.canvasLayout 300 500, Event.textLayout 100 40]).isMeasured = true ∧
    (run 0 [Event.canvasLayout 300 500, Event.textLayout 100 40,
      Event.textLayout 120 40]).translateX = 100 ∧
    (run 0 [Event.canvasLayout 300 500, Event.textLayout 100 40,
      Event.textLayout 120 40]).translateY = 230 := by
  refine ⟨?_, ?_, step_isMeasured_mono, ?_, ?_, ?_, ?_, ?_, ?_⟩
  · intro s w h hm hcw hch hw hh
    refine ⟨?_, ?_, ?_⟩ <;> simp [step, runMeasureEffect, hm, hcw, hch, hw, hh]
  · intro s w h hm htw hth hw hh
    refine ⟨?_, ?_, ?_⟩ <;> simp [step, runMeasureEffect, hm, htw, hth, hw, hh]
  · intro s w h hm
    have : runMeasureEffect { s with textSize := { width := w, height := h } } =
        { s with textSize := { width := w, height := h } } :=
      runMeasureEffect_of_isMeasured _ hm
    constructor <;> simp [step, this]
  all_goals
    norm_num [run, step, initialState, runMeasureEffect, panOnUpdate, jsClamp, jsRound,
      jsAbs, List.foldl]

/-- Witness for claim C3 at a concrete input. -/
theorem C3_auto_center_once_witness :
    (step (initialState 300) (Event.textLayout 100 40)).translateX =
      ((initialState 300).canvas.width - 100) / 2 ∧
    (step (initialState 300) (Event.textLayout 100 40)).translateY =
      ((initialState 300).canvas.height - 40) / 2 ∧
    (step (initialState 300) (Event.textLayout 100 40)).isMeasured = true :=
  C3_auto_center_once.1 (initialState 300) 100 40 rfl (by norm_num [initialState])
    (by norm_num [initialState]) (by norm_num) (by norm_num)

/-- Claim C4: the committed scale stays within [0.5, 3.0] after every event
of every run (in particular after every intermediate pinch update, not just
at gesture end); each pinch update commits clamp(startScale * factor, 0.5, 3)
where startScale was snapshotted from the live scale at pinch start, and the
initial scale 1 is already inside the range. -/
theorem C4_scale_invariant :
    (∀ windowWidth : ℚ, (initialState windowWidth).scale = 1) ∧
    (∀ s : DraggableState,
      (step s Event.pinchStart).startScale = s.scale ∧
      (step s Event.pinchStart).isScaling = true) ∧
    (∀ (s : DraggableState) (f : ℚ),
      (step s (Event.pinchUpdate f)).scale = jsClamp (s.startScale * f) (1/2) 3) ∧
    (∀ (windowWidth : ℚ) (events : List Event),
      1/2 ≤ (run windowWidth events).scale ∧ (run windowWidth events).scale ≤ 3) := by
  refine ⟨fun _ => rfl, fun s => ⟨rfl, rfl⟩, fun s f => rfl, fun w events => ?_⟩
  exact foldl_scale_bounds events (initialState w) (by norm_num [initialState])

/-- Claim C5: every terminal path of each recognizer forces its
gesture-active flag to false, and leaves the other recognizer's flag alone,
so after the terminal events of both recognizers have been delivered (in
either order, e.g. on a system cancellation of the whole interaction) both
isDragging and isScaling are false, from any state, including mid-update
states with isCenteredX true. -/
theorem C5_terminal_resets_flags (s : DraggableState) (e e' : Event)
    (hp : isPanTerminal e = true) (hq : isPinchTerminal e' = true) :
    (step s e).isDragging = false ∧
    (step s e).isScaling = s.isScaling ∧
    (step s e').isScaling = false ∧
    (step s e').isDragging = s.isDragging ∧
    ((step (step s e) e').isDragging = false ∧ (step (step s e) e').isScaling = false) ∧
    ((step (step s e') e).isDragging = false ∧ (step (step s e') e).isScaling = false) := by
  cases e <;> cases e' <;>
    simp_all [isPanTerminal, isPinchTerminal, step, panOnEnd, panOnFinalize, pinchOnEnd,
      withSpringTarget]

/-- Witness for claim C5: a cancellation arriving while a drag is active,
with isCenteredX latched true, and a pinch active too. -/
theorem C5_terminal_resets_flags_witness :
    (step (run 0 [Event.canvasLayout 300 500, Event.textLayout 100 40,
        Event.panTouchesDown, Event.panStart, Event.pinchStart, Event.panUpdate 1 0])
      Event.panCancel).isDragging = false ∧
    (step (run 0 [Event.canvasLayout 300 500, Event.textLayout 100 40,
        Event.panTouchesDown, Event.panStart, Event.pinchStart, Event.panUpdate 1 0])
      Event.panCancel).isScaling =
      (run 0 [Event.canvasLayout 300 500, Event.textLayout 100 40,
        Event.panTouchesDown, Event.panStart, Event.pinchStart, Event.panUpdate 1 0]).isScaling ∧
    (step (run 0 [Event.canvasLayout 300 500, Event.textLayout 100 40,
        Event.panTouchesDown, Event.panStart, Event.pinchStart, Event.panUpdate 1 0])
      Event.pinchCancel).isScaling = false ∧
    (step (run 0 [Event.canvasLayout 300 500, Event.textLayout 100 40,
        Event.panTouchesDown, Event.panStart, Event.pinchStart, Event.panUpdate 1 0])
      Event.pinchCancel).isDragging =
      (run 0 [Event.canvasLayout 300 500, Event.textLayout 100 40,
        Event.panTouchesDown, Event.panStart, Event.pinchStart, Event.panUpdate 1 0]).isDragging ∧
    ((step (step (run 0 [Event.canvasLayout 300 500, Event.textLayout 100 40,
        Event.panTouchesDown, Event.panStart, Event.pinchStart, Event.panUpdate 1 0])
      Event.panCancel) Event.pinchCancel).isDragging = false ∧
     (step (step (run 0 [Event.canvasLayout 300 500, Event.textLayout 100 40,
        Event.panTouchesDown, Event.panStart, Event.pinchStart, Event.panUpdate 1 0])
      Event.panCancel) Event.pinchCancel).isScaling = false) ∧
    ((step (step (run 0 [Event.canvasLayout 300 500, Event.textLayout 100 40,
        Event.panTouchesDown, Event.panStart, Event.pinchStart, Event.panUpdate 1 0])
      Event.pinchCancel) Event.panCancel).isDragging = false ∧
     (step (step (run 0 [Event.canvasLayout 300 500, Event.textLayout 100 40,
        Event.panTouchesDown, Event.panStart, Event.pinchStart, Event.panUpdate 1 0])
      Event.pinchCancel) Event.panCancel).isScaling = false) :=
  C5_terminal_resets_flags
    (run 0 [Event.canvasLayout 300 500, Event.textLayout 100 40,
      Event.panTouchesDown, Event.panStart, Event.pinchStart, Event.panUpdate 1 0])
    Event.panCancel Event.pinchCancel rfl rfl

/-- Claim C6, counterexample.  The claim asserts isCenteredX/isCenteredY
are reset to false whenever isDragging is false.  The source never resets
them: after a drag update snaps to center and the gesture ends, the state
has isDragging = false with isCenteredX (and isCenteredY) still true. -/
theorem C6_counterexample :
    (run 0 [Event.canvasLayout 300 500, Event.textLayout 100 40, Event.panTouchesDown,
      Event.panStart, Event.panUpdate 1 0, Event.panEnd]).isDragging = false ∧
    (run 0 [Event.canvasLayout 300 500, Event.textLayout 100 40, Event.panTouchesDown,
      Event.panStart, Event.panUpdate 1 0, Event.panEnd]).isCenteredX = true := by
  norm_num [run, step, initialState, runMeasureEffect, panOnUpdate, panOnTouchesDown,
    panOnStart, panOnEnd, panOnFinalize, withSpringTarget, jsClamp, jsRound, jsAbs,
    List.foldl]

/-- Claim C6, amended.  isCenteredX and isCenteredY are recomputed on every
drag update, but gesture termination (end, cancel or fail) resets only
isDragging and leaves both centering flags unchanged, so they can remain
true while isDragging is false; both flags start false at mount, and the
rendered guide lines (opacity isDragging && isCentered) are invisible
whenever isDragging is false. -/
theorem C6_centered_flags (s : DraggableState) (h : s.isDragging = false) :
    ((step s Event.panEnd).isCenteredX = s.isCenteredX ∧
     (step s Event.panEnd).isCenteredY = s.isCenteredY ∧
     (step s Event.panEnd).isDragging = false) ∧
    ((step s Event.panCancel).isCenteredX = s.isCenteredX ∧
     (step s Event.panCancel).isCenteredY = s.isCenteredY ∧
     (step s Event.panCancel).isDragging = false) ∧
    ((step s Event.panFail).isCenteredX = s.isCenteredX ∧
     (step s Event.panFail).isCenteredY = s.isCenteredY ∧
     (step s Event.panFail).isDragging = false) ∧
    verticalLineOpacity s = 0 ∧
    horizontalLineOpacity s = 0 ∧
    (∀ windowWidth : ℚ, (initialState windowWidth).isCenteredX = false ∧
      (initialState windowWidth).isCenteredY = false) := by
  refine ⟨⟨rfl, rfl, rfl⟩, ⟨rfl, rfl, rfl⟩, ⟨rfl, rfl, rfl⟩, ?_, ?_, fun _ => ⟨rfl, rfl⟩⟩ <;>
    simp [verticalLineOpacity, horizontalLineOpacity, h]

/-- Witness for the amended claim C6: the counterexample state itself,
which is not dragging but still has both centering flags latched true. -/
theorem C6_centered_flags_witness :
    ((step (run 0 [Event.canvasLayout 300 500, Event.textLayout 100 40,
        Event.panTouchesDown, Event.panStart, Event.panUpdate 1 0, Event.panEnd])
      Event.panEnd).isCenteredX =
      (run 0 [Event.canvasLayout 300 500, Event.textLayout 100 40,
        Event.panTouchesDown, Event.panStart, Event.panUpdate 1 0, Event.panEnd]).isCenteredX ∧
     (step (run 0 [Event.canvasLayout 300 500, Event.textLayout 100 40,
        Event.panTouchesDown, Event.panStart, Event.panUpdate 1 0, Event.panEnd])
      Event.panEnd).isCenteredY =
      (run 0 [Event.canvasLayout 300 500, Event.textLayout 100 40,
        Event.panTouchesDown, Event.panStart, Event.panUpdate 1 0, Event.panEnd]).isCenteredY ∧
     (step (run 0 [Event.canvasLayout 300 500, Event.textLayout 100 40,
        Event.panTouchesDown, Event.panStart, Event.panUpdate 1 0, Event.panEnd])
      Event.panEnd).isDragging = false) ∧
    ((step (run 0 [Event.canvasLayout 300 500, Event.textLayout 100 40,
        Event.panTouchesDown, Event.panStart, Event.panUpdate 1 0, Event.panEnd])
      Event.panCancel).isCenteredX =
      (run 0 [Event.canvasLayout 300 500, Event.textLayout 100 40,
        Event.panTouchesDown, Event.panStart, Event.panUpdate 1 0, Event.panEnd]).isCenteredX ∧
     (step (run 0 [Event.canvasLayout 300 500, Event.textLayout 100 40,
        Event.panTouchesDown, Event.panStart, Event.panUpdate 1 0, Event.panEnd])
      Event.panCancel).isCenteredY =
      (run 0 [Event.canvasLayout 300 500, Event.textLayout 100 40,
        Event.panTouchesDown, Event.panStart, Event.panUpdate 1 0, Event.panEnd]).isCenteredY ∧
     (step (run 0 [Event.canvasLayout 300 500, Event.textLayout 100 40,
        Event.panTouchesDown, Event.panStart, Event.panUpdate 1 0, Event.panEnd])
      Event.panCancel).isDragging = false) ∧
    ((step (run 0 [Event.canvasLayout 300 500, Event.textLayout 100 40,
        Event.panTouchesDown, Event.panStart, Event.panUpdate 1 0, Event.panEnd])
      Event.panFail).isCenteredX =
      (run 0 [Event.canvasLayout 300 500, Event.textLayout 100 40,
        Event.panTouchesDown, Event.panStart, Event.panUpdate 1 0, Event.panEnd]).isCenteredX ∧
     (step (run 0 [Event.canvasLayout 300 500, Event.textLayout 100 40,
        Event.panTouchesDown, Event.panStart, Event.panUpdate 1 0, Event.panEnd])
      Event.panFail).isCenteredY =
      (run 0 [Event.canvasLayout 300 500, Event.textLayout 100 40,
        Event.panTouchesDown, Event.panStart, Event.panUpdate 1 0, Event.panEnd]).isCenteredY ∧
     (step (run 0 [Event.canvasLayout 300 500, Event.textLayout 100 40,
        Event.panTouchesDown, Event.panStart, Event.panUpdate 1 0, Event.panEnd])
      Event.panFail).isDragging = false) ∧
    verticalLineOpacity (run 0 [Event.canvasLayout 300 500, Event.textLayout 100 40,
      Event.panTouchesDown, Event.panStart, Event.panUpdate 1 0, Event.panEnd]) = 0 ∧
    horizontalLineOpacity (run 0 [Event.canvasLayout 300 500, Event.textLayout 100 40,
      Event.panTouchesDown, Event.panStart, Event.panUpdate 1 0, Event.panEnd]) = 0 ∧
    (∀ windowWidth : ℚ, (initialState windowWidth).isCenteredX = false ∧
      (initialState windowWidth).isCenteredY = false) :=
  C6_centered_flags
    (run 0 [Event.canvasLayout 300 500, Event.textLayout 100 40,
      Event.panTouchesDown, Event.panStart, Event.panUpdate 1 0, Event.panEnd])
    (by norm_num [run, step, initialState, runMeasureEffect, panOnUpdate, panOnTouchesDown,
      panOnStart, panOnEnd, panOnFinalize, withSpringTarget, jsClamp, jsRound, jsAbs,
      List.foldl])

/-- Claim C7: a gesture-end event changes no logical value.  On drag end
the spring targets the current translate values and on pinch end the
current scale, so the committed position and scale are exactly what they
were before the end event, while the corresponding active flag becomes
false in the same step (not at animation completion). -/
theorem C7_end_preserves_values (s : DraggableState) :
    ((step s Event.panEnd).translateX = s.translateX ∧
     (step s Event.panEnd).translateY = s.translateY ∧
     (step s Event.panEnd).scale = s.scale ∧
     (step s Event.panEnd).isDragging = false ∧
     (step s Event.panEnd).translateX = withSpringTarget s.translateX ∧
     (step s Event.panEnd).translateY = withSpringTarget s.translateY) ∧
    ((step s Event.pinchEnd).scale = s.scale ∧
     (step s Event.pinchEnd).translateX = s.translateX ∧
     (step s Event.pinchEnd).translateY = s.translateY ∧
     (step s Event.pinchEnd).isScaling = false ∧
     (step s Event.pinchEnd).scale = withSpringTarget s.scale) :=
  ⟨⟨rfl, rfl, rfl, rfl, rfl, rfl⟩, ⟨rfl, rfl, rfl, rfl, rfl⟩⟩

/-- Claim C8: a measurement event alone never modifies the committed
position, scale or gesture flags once the one-shot auto-center is spent
(isMeasured already true) or while the four dimensions are not all
non-zero — even if the committed position is outside the new bounds. -/
theorem C8_measurement_preserves_state (s : DraggableState) (w h : ℚ)
    (hc : s.isMeasured = true ∨ w = 0 ∨ h = 0 ∨
      s.textSize.width = 0 ∨ s.textSize.height = 0)
    (ht : s.isMeasured = true ∨ w = 0 ∨ h = 0 ∨
      s.canvas.width = 0 ∨ s.canvas.height = 0) :
    ((step s (Event.canvasLayout w h)).translateX = s.translateX ∧
     (step s (Event.canvasLayout w h)).translateY = s.translateY ∧
     (step s (Event.canvasLayout w h)).scale = s.scale ∧
     (step s (Event.canvasLayout w h)).isDragging = s.isDragging ∧
     (step s (Event.canvasLayout w h)).isScaling = s.isScaling ∧
     (step s (Event.canvasLayout w h)).isCenteredX = s.isCenteredX ∧
     (step s (Event.canvasLayout w h)).isCenteredY = s.isCenteredY) ∧
    ((step s (Event.textLayout w h)).translateX = s.translateX ∧
     (step s (Event.textLayout w h)).translateY = s.translateY ∧
     (step s (Event.textLayout w h)).scale = s.scale ∧
     (step s (Event.textLayout w h)).isDragging = s.isDragging ∧
     (step s (Event.textLayout w h)).isScaling = s.isScaling ∧
     (step s (Event.textLayout w h)).isCenteredX = s.isCenteredX ∧
     (step s (Event.textLayout w h)).isCenteredY = s.isCenteredY) := by
  have h1 : runMeasureEffect { s with canvas := { width := w, height := h } } =
      { s with canvas := { width := w, height := h } } := by
    apply runMeasureEffect_not_fired
    rcases hc with hc | hc | hc | hc | hc <;> simp [hc]
  have h2 : runMeasureEffect { s with textSize := { width := w, height := h } } =
      { s with textSize := { width := w, height := h } } := by
    apply runMeasureEffect_not_fired
    rcases ht with ht | ht | ht | ht | ht <;> simp [ht]
  constructor
  · simp [step, h1]
  · simp [step, h2]

/-- Witness for claim C8 at a concrete already-measured state. -/
theorem C8_measurement_preserves_state_witness :
    ((step (run 0 [Event.canvasLayout 300 500, Event.textLayout 100 40])
        (Event.canvasLayout 600 700)).translateX =
      (run 0 [Event.canvasLayout 300 500, Event.textLayout 100 40]).translateX ∧
     (step (run 0 [Event.canvasLayout 300 500, Event.textLayout 100 40])
        (Event.canvasLayout 600 700)).translateY =
      (run 0 [Event.canvasLayout 300 500, Event.textLayout 100 40]).translateY ∧
     (step (run 0 [Event.canvasLayout 300 500, Event.textLayout 100 40])
        (Event.canvasLayout 600 700)).scale =
      (run 0 [Event.canvasLayout 300 500, Event.textLayout 100 40]).scale ∧
     (step (run 0 [Event.canvasLayout 300 500, Event.textLayout 100 40])
        (Event.canvasLayout 600 700)).isDragging =
      (run 0 [Event.canvasLayout 300 500, Event.textLayout 100 40]).isDragging ∧
     (step (run 0 [Event.canvasLayout 300 500, Event.textLayout 100 40])
        (Event.canvasLayout 600 700)).isScaling =
      (run 0 [Event.canvasLayout 300 500, Event.textLayout 100 40]).isScaling ∧
     (step (run 0 [Event.canvasLayout 300 500, Event.textLayout 100 40])
        (Event.canvasLayout 600 700)).isCenteredX =
      (run 0 [Event.canvasLayout 300 500, Event.textLayout 100 40]).isCenteredX ∧
     (step (run 0 [Event.canvasLayout 300 500, Event.textLayout 100 40])
        (Event.canvasLayout 600 700)).isCenteredY =
      (run 0 [Event.canvasLayout 300 500, Event.textLayout 100 40]).isCenteredY) ∧
    ((step (run 0 [Event.canvasLayout 300 500, Event.textLayout 100 40])
        (Event.textLayout 600 700)).translateX =
      (run 0 [Event.canvasLayout 300 500, Event.textLayout 100 40]).translateX ∧
     (step (run 0 [Event.canvasLayout 300 500, Event.textLayout 100 40])
        (Event.textLayout 600 700)).translateY =
      (run 0 [Event.canvasLayout 300 500, Event.textLayout 100 40]).translateY ∧
     (step (run 0 [Event.canvasLayout 300 500, Event.textLayout 100 40])
        (Event.textLayout 600 700)).scale =
      (run 0 [Event.canvasLayout 300 500, Event.textLayout 100 40]).scale ∧
     (step (run 0 [Event.canvasLayout 300 500, Event.textLayout 100 40])
        (Event.textLayout 600 700)).isDragging =
      (run 0 [Event.canvasLayout 300 500, Event.textLayout 100 40]).isDragging ∧
     (step (run 0 [Event.canvasLayout 300 500, Event.textLayout 100 40])
        (Event.textLayout 600 700)).isScaling =
      (run 0 [Event.canvasLayout 300 500, Event.textLayout 100 40]).isScaling ∧
     (step (run 0 [Event.canvasLayout 300 500, Event.textLayout 100 40])
        (Event.textLayout 600 700)).isCenteredX =
      (run 0 [Event.canvasLayout 300 500, Event.textLayout 100 40]).isCenteredX ∧
     (step (run 0 [Event.canvasLayout 300 500, Event.textLayout 100 40])
        (Event.textLayout 600 700)).isCenteredY =
      (run 0 [Event.canvasLayout 300 500, Event.textLayout 100 40]).isCenteredY) :=
  C8_measurement_preserves_state
    (run 0 [Event.canvasLayout 300 500, Event.textLayout 100 40]) 600 700
    (Or.inl (by norm_num [run, step, initialState, runMeasureEffect, List.foldl]))
    (Or.inl (by norm_num [run, step, initialState, runMeasureEffect, List.foldl]))

/-- Claim C9: the position clamp is idempotent.  For every candidate value
and every fixed bound (containerExtent − labelExtent, of either sign),
clamping an already-clamped value returns it unchanged. -/
theorem C9_clamp_idempotent (v bound : ℚ) :
    jsClamp (jsClamp v 0 bound) 0 bound = jsClamp v 0 bound := by
  unfold jsClamp
  rcases le_total bound 0 with hb | hb <;>
    rcases le_total v 0 with hv | hv <;>
    rcases le_total v bound with hvb | hvb <;>
    simp_all [min_def, max_def]

/-- Claim C10: before any container measurement callback fires, the canvas
state defaults to (window width, 500) — not (0, 0) — so auto-centering can
fire from the label measurement alone (when the window width is non-zero),
placing the label at the center computed from this default container size. -/
theorem C10_default_canvas (windowWidth w h : ℚ)
    (hww : windowWidth ≠ 0) (hw : w ≠ 0) (hh : h ≠ 0) :
    (initialState windowWidth).canvas.width = windowWidth ∧
    (initialState windowWidth).canvas.height = 500 ∧
    (initialState windowWidth).canvas ≠ { width := 0, height := 0 } ∧
    (step (initialState windowWidth) (Event.textLayout w h)).isMeasured = true ∧
    (step (initialState windowWidth) (Event.textLayout w h)).translateX =
      (windowWidth - w) / 2 ∧
    (step (initialState windowWidth) (Event.textLayout w h)).translateY =
      (500 - h) / 2 := by
  refine ⟨rfl, rfl, ?_, ?_, ?_, ?_⟩
  · simp [initialState, Size.mk.injEq]
  all_goals
    norm_num [step, initialState, runMeasureEffect, hww, hw, hh]

/-- Witness for claim C10 at a concrete input. -/
theorem C10_default_canvas_witness :
    (initialState 300).canvas.width = 300 ∧
    (initialState 300).canvas.height = 500 ∧
    (initialState 300).canvas ≠ { width := 0, height := 0 } ∧
    (step (initialState 300) (Event.textLayout 100 40)).isMeasured = true ∧
    (step (initialState 300) (Event.textLayout 100 40)).translateX = (300 - 100) / 2 ∧
    (step (initialState 300) (Event.textLayout 100 40)).translateY = (500 - 40) / 2 :=
  C10_default_canvas 300 100 40 (by norm_num) (by norm_num) (by norm_num)

end DraggableText
